import Mathlib

/-!
Shallow embedding of the standalone embedding protocol
(`bokeh/embed/standalone.py`): the four entry points
(`autoload_static`, `components`, `file_html`, `json_item`) and the
helpers `_check_models_or_docs` and `_title_from_models`, together
with models of the external collaborators (container scoping,
serialization bridge, templates) taken from the specification where
the collaborator code is not part of this repository.
-/

set_option autoImplicit false
set_option linter.unusedVariables false

namespace Standalone

/-- A theme object; opaque to this module beyond identity. -/
inductive Theme where
  | named (name : String)
deriving DecidableEq, Repr

/-- Modelled from the spec: the toolkit-wide default theme constant
applied when neither an explicit theme nor a container theme exists. -/
def default_theme : Theme := Theme.named ("default")

/-- The owning-document back-reference visible from a model
(the Python attribute `p.document`): this module consults only its
identity and its title. -/
structure DocRef where
  did : Nat
  title : String
deriving DecidableEq, Repr

/-- A scene-graph model: a stable identifier and an optional
owning-document back-reference. -/
structure Model where
  mid : Nat
  document : Option DocRef
deriving DecidableEq, Repr

/-- A document: identifier, title, and an ordered list of root models. -/
structure Document where
  did : Nat
  title : String
  roots : List Model
deriving DecidableEq, Repr

/-- `ModelLike = Union[Model, Document]` from the source. -/
inductive ModelLike where
  | model (m : Model)
  | doc (d : Document)
deriving DecidableEq, Repr

/-- An arbitrary Python value as observed by the runtime `isinstance`
checks of this module: a Model, a Document, or anything else. -/
inductive PyObj where
  | model (m : Model)
  | doc (d : Document)
  | other (tag : String)
deriving DecidableEq, Repr

/-- A Python dictionary key as observed by the `isinstance(x, str)`
check: a string key or anything else. -/
inductive PyKey where
  | str (s : String)
  | nonstr (tag : String)
deriving DecidableEq, Repr

/-- A Document input contributes all of its current roots; a Model
contributes itself (spec section 4.1). -/
def expandRoots : ModelLike → List Model
  | ModelLike.model m => [m]
  | ModelLike.doc d => d.roots

/-- Concatenation of `expandRoots` over a list of inputs. -/
def expandAll : List ModelLike → List Model
  | [] => []
  | x :: xs => expandRoots x ++ expandAll xs

/-- A render root: the generated element identifier for one top-level
model, plus the identity of that model. -/
structure RenderRoot where
  elementid : String
  modelId : Nat
deriving DecidableEq, Repr

/-- A render item: the ordered render roots produced for one resolved
container (the source destructures exactly one per invocation). -/
structure RenderItem where
  roots : List RenderRoot
deriving DecidableEq, Repr

/-- One serialized root inside a document JSON tree. -/
structure DocJsonRoot where
  id : String
deriving DecidableEq, Repr

/-- A serialized document JSON tree: the serialized title and the
ordered serialized roots. -/
structure DocJson where
  title : String
  roots : List DocJsonRoot
deriving DecidableEq, Repr

/-- Modelled from the spec: the Serialization Bridge
`standalone_docs_json_and_render_items` (not part of this repository).
It serializes the resolved container into a JSON tree and one render
item per resolved container, whose roots are the requested top-level
objects in order (a Document contributing all of its roots), each
paired with a generated element identifier drawn from the supply. -/
def standalone_docs_json_and_render_items (items : List ModelLike)
    (ids : Nat → String) : DocJson × RenderItem :=
  let canonical := expandAll items
  let rroots := canonical.enum.map (fun p => RenderRoot.mk (ids p.1) p.2.mid)
  (DocJson.mk ("") (rroots.map (fun r => DocJsonRoot.mk r.elementid)),
   RenderItem.mk rroots)

/-- Modelled from the spec: `standalone_docs_json` serializes the
resolved container (given its title at serialization time) for the
requested models, generating one root identifier per model. -/
def standalone_docs_json (title : String) (ms : List Model)
    (ids : Nat → String) : DocJson :=
  DocJson.mk title (ms.enum.map (fun p => DocJsonRoot.mk (ids p.1)))

/-- Modelled from the spec: the script body that covers all render
items of the invocation (black-box templating). -/
def script_for_render_items (docs_json : DocJson) (item : RenderItem) : String :=
  ("embed_items(" ++ docs_json.title ++ ";"
    ++ String.intercalate (",") (item.roots.map RenderRoot.elementid) ++ ")")

/-- Modelled from the spec: `wrap_in_onload` wraps a script body for
on-load execution (black-box templating). -/
def wrap_in_onload (code : String) : String :=
  ("onload(" ++ code ++ ")")

/-- Modelled from the spec: the auto-load script template, a function
of the element identifier and the script body. -/
def AUTOLOAD_JS_render (elementid : String) (script : String) : String :=
  ("autoload_js(" ++ elementid ++ ";" ++ script ++ ")")

/-- Modelled from the spec: the auto-load tag template referencing the
external script path and the element identifier. -/
def AUTOLOAD_TAG_render (src_path : String) (elementid : String) : String :=
  ("<script src=" ++ src_path ++ " id=" ++ elementid ++ "></script>")

/-- Modelled from the spec: the per-root div markup template. -/
def ROOT_DIV_render (r : RenderRoot) : String :=
  ("<div id=" ++ r.elementid ++ "></div>")

/-- `div_for_root` from the source body of `components`. -/
def div_for_root (r : RenderRoot) : String := ROOT_DIV_render r

/-- The exact ValueError message raised by `_check_models_or_docs`. -/
def invalidInputMsg : String :=
  "Input must be a Model, a Document, a Sequence of Models and Document, or a dictionary from string to Model and Document"

/-- `isinstance(x, (Model, Document))`. -/
def isModelOrDoc : PyObj → Bool
  | PyObj.model _ => true
  | PyObj.doc _ => true
  | PyObj.other _ => false

/-- `isinstance(x, str)` on a dictionary key. -/
def isStrKey : PyKey → Bool
  | PyKey.str _ => true
  | PyKey.nonstr _ => false

/-- A Python value refined to `ModelLike` when the isinstance checks
accept it. -/
def asModelLike : PyObj → Option ModelLike
  | PyObj.model m => some (ModelLike.model m)
  | PyObj.doc d => some (ModelLike.doc d)
  | PyObj.other _ => none

/-- All elements of a sequence refined to `ModelLike`, or `none` if
any element fails the isinstance check. -/
def allModelLike : List PyObj → Option (List ModelLike)
  | [] => some []
  | x :: xs =>
    match asModelLike x, allModelLike xs with
    | some m, some ms => some (m :: ms)
    | _, _ => none

/-- One dictionary entry refined to a string key and `ModelLike`
value, or `none` if either check fails. -/
def entryOk : PyKey × PyObj → Option (String × ModelLike)
  | (PyKey.str s, x) => (asModelLike x).map (fun m => (s, m))
  | (PyKey.nonstr _, _) => none

/-- All dictionary entries refined, or `none` on the first failure. -/
def allEntries : List (PyKey × PyObj) → Option (List (String × ModelLike))
  | [] => some []
  | e :: es =>
    match entryOk e, allEntries es with
    | some a, some rest => some (a :: rest)
    | _, _ => none

/-- The caller input of `components`: a single object, an ordered
collection, or a string-keyed mapping carrying its concrete dictionary
class (`models.__class__` in the source). -/
inductive ComponentsInput where
  | single (x : PyObj)
  | seq (xs : List PyObj)
  | mapping (dictType : String) (entries : List (PyKey × PyObj))
deriving DecidableEq, Repr

/-- The validated collection returned by `_check_models_or_docs`. -/
inductive Checked where
  | seq (ms : List ModelLike)
  | mapping (dictType : String) (entries : List (String × ModelLike))
deriving DecidableEq, Repr

/-- `_check_models_or_docs` from the source: a single Model or
Document is wrapped into a one-element list; a sequence must contain
only Models and Documents; a dictionary must have string keys and
Model or Document values; anything else raises the fixed ValueError
message. -/
def _check_models_or_docs (models : ComponentsInput) : Except String Checked :=
  match models with
  | ComponentsInput.single (PyObj.model m) => Except.ok (Checked.seq [ModelLike.model m])
  | ComponentsInput.single (PyObj.doc d) => Except.ok (Checked.seq [ModelLike.doc d])
  | ComponentsInput.single (PyObj.other _) => Except.error invalidInputMsg
  | ComponentsInput.seq xs =>
    match allModelLike xs with
    | some ms => Except.ok (Checked.seq ms)
    | none => Except.error invalidInputMsg
  | ComponentsInput.mapping dt es =>
    match allEntries es with
    | some es2 => Except.ok (Checked.mapping dt es2)
    | none => Except.error invalidInputMsg

/-- The `input_type_valid` flag of `_check_models_or_docs`, as a
predicate on the caller input. -/
def input_type_valid : ComponentsInput → Bool
  | ComponentsInput.single x => isModelOrDoc x
  | ComponentsInput.seq xs => xs.all isModelOrDoc
  | ComponentsInput.mapping _ es =>
      es.all (fun e => isStrKey e.1 && isModelOrDoc e.2)

/-- `was_single_object` in the source: true exactly for a bare Model
input (the Document case is deliberately commented out there). -/
def is_single_model : ComponentsInput → Bool
  | ComponentsInput.single (PyObj.model _) => true
  | _ => false

/-- Step 1 of `components`: a bare Model is wrapped into a
one-element list before validation. -/
def wrapSingleModel : ComponentsInput → ComponentsInput
  | ComponentsInput.single (PyObj.model m) => ComponentsInput.seq [PyObj.model m]
  | x => x

/-- One per-root result of `components`: a div markup string or a
lower-level render-root handle, selected by `wrap_plot_info`. -/
inductive ResultVal where
  | div (s : String)
  | root (r : RenderRoot)
deriving DecidableEq, Repr

/-- The shaped second component of the `components` return value. -/
inductive Shaped where
  | single (v : ResultVal)
  | seq (vs : List ResultVal)
  | mapping (dictType : String) (entries : List (String × ResultVal))
deriving DecidableEq, Repr

/-- `components` from the source: detect a bare Model, validate the
input shape, convert a dictionary to a list saving its keys and
concrete class, serialize through the bridge, build one result per
render root, and reshape the results back into the input shape. -/
def components (models : ComponentsInput) (wrap_script : Bool)
    (wrap_plot_info : Bool) (theme : Option Theme) (ids : Nat → String) :
    Except String (String × Shaped) :=
  let was_single_object := is_single_model models
  match _check_models_or_docs (wrapSingleModel models) with
  | Except.error e => Except.error e
  | Except.ok checked =>
    let model_keys : Option (List String) :=
      match checked with
      | Checked.seq _ => none
      | Checked.mapping _ es => some (es.map Prod.fst)
    let dict_type : String :=
      match checked with
      | Checked.seq _ => ("dict")
      | Checked.mapping dt _ => dt
    let modelList : List ModelLike :=
      match checked with
      | Checked.seq ms => ms
      | Checked.mapping _ es => es.map Prod.snd
    let pr := standalone_docs_json_and_render_items modelList ids
    let js := script_for_render_items pr.1 pr.2
    let script := if wrap_script then ("<script>" ++ js ++ "</script>") else js
    let results : List ResultVal :=
      if wrap_plot_info
      then pr.2.roots.map (fun r => ResultVal.div (div_for_root r))
      else pr.2.roots.map ResultVal.root
    let result : Shaped :=
      if was_single_object then
        Shaped.single (results.headD (ResultVal.div ("")))
      else
        match model_keys with
        | some keys => Shaped.mapping dict_type (keys.zip results)
        | none => Shaped.seq results
    Except.ok (script, result)

/-- `autoload_static` from the source: a Model is used directly, a
Document is accepted (its roots populate the output document scope),
anything else raises ValueError; the bridge serializes the single
requested object, and the first entry of the render-item roots
provides the element identifier used by both the script and the tag
(further roots are not consulted). -/
def autoload_static (model : PyObj) (script_path : String)
    (ids : Nat → String) : Except String (String × String) :=
  match model with
  | PyObj.other _ => Except.error ("autoload_static expects a single Model or Document")
  | PyObj.model m =>
    autoload_static_go (ModelLike.model m) script_path ids
  | PyObj.doc d =>
    autoload_static_go (ModelLike.doc d) script_path ids
where
  autoload_static_go (ml : ModelLike) (script_path : String)
      (ids : Nat → String) : Except String (String × String) :=
    let pr := standalone_docs_json_and_render_items [ml] ids
    match pr.2.roots.head? with
    | none => Except.error ("IndexError: list index out of range")
    | some r0 =>
      let js := wrap_in_onload
        (AUTOLOAD_JS_render r0.elementid (script_for_render_items pr.1 pr.2))
      let tag := AUTOLOAD_TAG_render script_path r0.elementid
      Except.ok (js, tag)

/-- The caller input of `file_html`: a Model, a Document, or a
sequence (the sequence is passed through unchecked, so it may hold
Documents as far as the title helper observes). -/
inductive FileHtmlInput where
  | model (m : Model)
  | doc (d : Document)
  | seq (ms : List ModelLike)
deriving DecidableEq, Repr

/-- The `models_seq` normalization at the top of `file_html`: a Model
is wrapped, a Document is replaced by its roots, a sequence passes
through. -/
def models_seq : FileHtmlInput → List ModelLike
  | FileHtmlInput.model m => [ModelLike.model m]
  | FileHtmlInput.doc d => d.roots.map ModelLike.model
  | FileHtmlInput.seq ms => ms

/-- `DEFAULT_TITLE` imported from the document module. -/
def DEFAULT_TITLE : String := "Bokeh Application"

/-- The first loop of `_title_from_models`: the title of the first
list element that is itself a Document, if any. -/
def firstDocTitle : List ModelLike → Option String
  | [] => none
  | ModelLike.doc d :: _ => some d.title
  | ModelLike.model _ :: rest => firstDocTitle rest

/-- The second loop of `_title_from_models`: the owning-document
title of the first model whose back-reference is set, if any. This
loop only runs when the list holds no Document, so the Document case
here is unreachable in the source and skips. -/
def firstOwnerTitle : List ModelLike → Option String
  | [] => none
  | ModelLike.model m :: rest =>
    match m.document with
    | some d => some d.title
    | none => firstOwnerTitle rest
  | ModelLike.doc _ :: rest => firstOwnerTitle rest

/-- `_title_from_models` from the source: explicit override title,
else the title of the first listed Document, else the title of the
first owning document of a listed model, else the default title. -/
def _title_from_models (models : List ModelLike) (title : Option String) : String :=
  match title with
  | some t => t
  | none =>
    match firstDocTitle models with
    | some t => t
    | none =>
      match firstOwnerTitle models with
      | some t => t
      | none => DEFAULT_TITLE

/-- The full HTML page artifact; modelled from the spec as the record
of the protocol-computed values handed to the page template (title,
script, one markup fragment per root). -/
structure HtmlPage where
  title : String
  script : String
  divs : List String
deriving DecidableEq, Repr

/-- `file_html` from the source: normalize the input to a model
sequence, serialize through the bridge, resolve the title through
`_title_from_models`, and hand the computed values to the page
template. -/
def file_html (models : FileHtmlInput) (title : Option String)
    (theme : Option Theme) (ids : Nat → String) : HtmlPage :=
  let ms := models_seq models
  let pr := standalone_docs_json_and_render_items ms ids
  let t := _title_from_models ms title
  HtmlPage.mk t (script_for_render_items pr.1 pr.2)
    (pr.2.roots.map div_for_root)

/-- The structured record returned by `json_item`. -/
structure StandaloneEmbedJson where
  target_id : Option String
  root_id : String
  doc : DocJson
  version : String
deriving DecidableEq, Repr

/-- The toolkit version string constant. -/
def __version__ : String := "3.0.0"

/-- `json_item` from the source: resolve a document for the single
model, set its title to the empty string, serialize it, and return
the record of target identifier, first generated root identifier,
JSON tree, and version. -/
def json_item (model : Model) (target : Option String)
    (theme : Option Theme) (ids : Nat → String) : StandaloneEmbedJson :=
  let doc_json := standalone_docs_json ("") [model] ids
  let root_id := (doc_json.roots.headD (DocJsonRoot.mk (""))).id
  StandaloneEmbedJson.mk target root_id doc_json __version__

/-- The mutable associations this protocol may touch: the owning
document of each model (by model identifier), the title of each
document, and the theme of each document (by document identifier). -/
structure EmbedState where
  assoc : Nat → Option Nat
  titles : Nat → String
  themes : Nat → Option Theme

/-- The single document shared by every listed model, if one exists
(the reuse condition of the container resolver). -/
def sharedDoc (ms : List Model) (st : EmbedState) : Option Nat :=
  match ms with
  | [] => none
  | m :: rest =>
    match st.assoc m.mid with
    | none => none
    | some d => if rest.all (fun x => st.assoc x.mid == some d) then some d else none

/-- Record the prior owning-document association of each model. -/
def savePrior (ms : List Model) (a : Nat → Option Nat) : List (Nat × Option Nat) :=
  ms.map (fun m => (m.mid, a m.mid))

/-- Attach every listed model to the given document. -/
def attachAll (ms : List Model) (docId : Nat) (a : Nat → Option Nat) :
    Nat → Option Nat :=
  fun i => if ms.any (fun m => m.mid == i) then some docId else a i

/-- Restore the recorded prior associations. -/
def restorePrior (saved : List (Nat × Option Nat)) (a : Nat → Option Nat) :
    Nat → Option Nat :=
  fun i =>
    match List.lookup i saved with
    | some v => v
    | none => a i

/-- Modelled from the spec: the theme-precedence rule of the
container resolver (explicit theme, else a reused container theme,
else the default theme). -/
def apply_theme_precedence (explicit : Option Theme)
    (containerTheme : Option Theme) : Theme :=
  match explicit with
  | some t => t
  | none =>
    match containerTheme with
    | some t => t
    | none => default_theme

/-- The theme the resolved container carries before the invocation:
present only in the reuse case. -/
def container_theme (ms : List Model) (always_new : Bool) (st : EmbedState) :
    Option Theme :=
  match sharedDoc ms st, always_new with
  | some d, false => st.themes d
  | _, _ => none

/-- The theme in effect for the duration of one invocation. -/
def themeInEffect (ms : List Model) (explicit : Option Theme)
    (always_new : Bool) (st : EmbedState) : Theme :=
  apply_theme_precedence explicit (container_theme ms always_new st)

/-- Modelled from the spec: the scoped container resolver
`OutputDocumentFor` (not part of this repository). If every model
already shares one document and a new one is not forced, that
document is reused as-is; otherwise the models are temporarily
attached to a fresh transient document after their prior
associations are recorded. The body runs with the resolved document
and the theme in effect; the cleanup then runs unconditionally,
restoring the recorded associations and discarding the transient
document (its title slot is restored). -/
def withOutputDocumentFor {α : Type} (ms : List Model)
    (explicitTheme : Option Theme) (always_new : Bool) (newDocId : Nat)
    (body : Nat → Theme → EmbedState → Except String α × EmbedState)
    (st : EmbedState) : Except String α × EmbedState :=
  match sharedDoc ms st, always_new with
  | some d, false =>
    body d (themeInEffect ms explicitTheme always_new st) st
  | _, _ =>
    let saved := savePrior ms st.assoc
    let st1 : EmbedState :=
      EmbedState.mk (attachAll ms newDocId st.assoc) st.titles st.themes
    let p := body newDocId (themeInEffect ms explicitTheme always_new st) st1
    (p.1, EmbedState.mk (restorePrior saved p.2.assoc)
      (fun i => if i == newDocId then st.titles i else p.2.titles i)
      p.2.themes)

/-- One call to one of the four entry points, with its arguments. -/
inductive EntryCall where
  | componentsC (models : ComponentsInput) (wrap_script : Bool)
      (wrap_plot_info : Bool) (theme : Option Theme)
  | fileHtmlC (models : FileHtmlInput) (title : Option String)
      (theme : Option Theme)
  | autoloadC (model : PyObj) (script_path : String)
  | jsonItemC (m : Model) (target : Option String) (theme : Option Theme)
deriving DecidableEq, Repr

/-- One produced artifact, by entry point. -/
inductive Artifact where
  | comp (script : String) (result : Shaped)
  | page (p : HtmlPage)
  | loader (js : String) (tag : String)
  | jsonA (j : StandaloneEmbedJson)
deriving DecidableEq, Repr

/-- The models a `components` call attaches to the resolved
document (the validated collection, Documents expanded to roots). -/
def componentsAttachModels : ComponentsInput → List Model := fun models =>
  match _check_models_or_docs (wrapSingleModel models) with
  | Except.ok (Checked.seq ms) => expandAll ms
  | Except.ok (Checked.mapping _ es) => expandAll (es.map Prod.snd)
  | Except.error _ => []

/-- The models an `autoload_static` call attaches to the resolved
document. -/
def autoloadModels : PyObj → List Model
  | PyObj.model m => [m]
  | PyObj.doc d => d.roots
  | PyObj.other _ => []

/-- The pure artifact of one entry call (all four entry points as one
function of the call and the identifier supply). -/
def runEntry (call : EntryCall) (ids : Nat → String) : Except String Artifact :=
  match call with
  | EntryCall.componentsC models ws wp theme =>
    (components models ws wp theme ids).map (fun p => Artifact.comp p.1 p.2)
  | EntryCall.fileHtmlC models title theme =>
    Except.ok (Artifact.page (file_html models title theme ids))
  | EntryCall.autoloadC m path =>
    (autoload_static m path ids).map (fun p => Artifact.loader p.1 p.2)
  | EntryCall.jsonItemC m target theme =>
    Except.ok (Artifact.jsonA (json_item m target theme ids))

/-- The stateful run of one entry call: the artifact computation of
`runEntry` performed inside the scoped container resolver, with the
serialization step allowed to fail (`serializeOk = false` stands for
an UnsupportedRootError raised by the bridge). `json_item` is the one
body that writes a title: it sets the resolved document title to the
empty string before serializing. -/
def runEntryState (call : EntryCall) (ids : Nat → String)
    (serializeOk : Bool) (newDocId : Nat) (st : EmbedState) :
    Except String Artifact × EmbedState :=
  match call with
  | EntryCall.componentsC models ws wp theme =>
    match components models ws wp theme ids with
    | Except.error e => (Except.error e, st)
    | Except.ok pr =>
      withOutputDocumentFor (componentsAttachModels models) theme false newDocId
        (fun _ _ s =>
          (if serializeOk then Except.ok (Artifact.comp pr.1 pr.2)
           else Except.error ("UnsupportedRootError"), s))
        st
  | EntryCall.fileHtmlC models title theme =>
    withOutputDocumentFor (expandAll (models_seq models)) theme false newDocId
      (fun _ _ s =>
        (if serializeOk then Except.ok (Artifact.page (file_html models title theme ids))
         else Except.error ("UnsupportedRootError"), s))
      st
  | EntryCall.autoloadC m path =>
    match m with
    | PyObj.other _ =>
      (Except.error ("autoload_static expects a single Model or Document"), st)
    | _ =>
      withOutputDocumentFor (autoloadModels m) none false newDocId
        (fun _ _ s =>
          ((match autoload_static m path ids with
            | Except.ok pr2 =>
              if serializeOk then Except.ok (Artifact.loader pr2.1 pr2.2)
              else Except.error ("UnsupportedRootError")
            | Except.error e => Except.error e), s))
        st
  | EntryCall.jsonItemC m target theme =>
    withOutputDocumentFor [m] theme false newDocId
      (fun docId _ s =>
        let s1 : EmbedState :=
          EmbedState.mk s.assoc (fun i => if i == docId then ("") else s.titles i)
            s.themes
        (if serializeOk then Except.ok (Artifact.jsonA (json_item m target theme ids))
         else Except.error ("UnsupportedRootError"), s1))
      st

/-! ### Supporting lemmas -/

theorem expandAll_map_model (xs : List Model) :
    expandAll (xs.map ModelLike.model) = xs := by
  induction xs with
  | nil => rfl
  | cons x rest ih => simp [expandAll, expandRoots, ih]

theorem allModelLike_map_model (xs : List Model) :
    allModelLike (xs.map PyObj.model) = some (xs.map ModelLike.model) := by
  induction xs with
  | nil => rfl
  | cons x rest ih => simp [allModelLike, asModelLike, ih]

theorem allEntries_str_model (es : List (String × Model)) :
    allEntries (es.map (fun e => (PyKey.str e.1, PyObj.model e.2)))
      = some (es.map (fun e => (e.1, ModelLike.model e.2))) := by
  induction es with
  | nil => rfl
  | cons e rest ih => simp [allEntries, entryOk, asModelLike, ih]

/-- The per-root result selected by `wrap_plot_info` for a model and
its generated element identifier. -/
def resultFor (wrap_plot_info : Bool) (eid : String) (m : Model) : ResultVal :=
  if wrap_plot_info then ResultVal.div (div_for_root (RenderRoot.mk eid m.mid))
  else ResultVal.root (RenderRoot.mk eid m.mid)

theorem results_of_roots (wp : Bool) (canonical : List Model) (ids : Nat → String) :
    (if wp
      then (canonical.enum.map (fun p => RenderRoot.mk (ids p.1) p.2.mid)).map
        (fun r => ResultVal.div (div_for_root r))
      else (canonical.enum.map (fun p => RenderRoot.mk (ids p.1) p.2.mid)).map
        ResultVal.root)
      = canonical.enum.map (fun p => resultFor wp (ids p.1) p.2) := by
  cases wp <;> simp [resultFor, List.map_map, Function.comp]

/-- The script value computed by `components` for the given
serialization request. -/
def compScript (ws : Bool) (items : List ModelLike) (ids : Nat → String) : String :=
  let pr := standalone_docs_json_and_render_items items ids
  let js := script_for_render_items pr.1 pr.2
  if ws then ("<script>" ++ js ++ "</script>") else js

theorem expandAll_map_snd (entries : List (String × Model)) :
    expandAll ((entries.map (fun e => (e.1, ModelLike.model e.2))).map Prod.snd)
      = entries.map Prod.snd := by
  induction entries with
  | nil => rfl
  | cons e rest ih =>
    simp only [List.map_map] at ih
    simp [expandAll, expandRoots, ih]

/-! ### Claim C1 -/

/-- Claim C1: shape round-trip for `components`. A bare Model input
yields one unwrapped per-root result; an ordered-collection input of
models yields the ordered sequence of results, the i-th result built
from the i-th input model; a string-keyed mapping input yields a
mapping built with the same concrete dictionary class the caller
supplied, with the same key list in the same order. -/
theorem components_shape_roundtrip (m : Model) (ms : List Model)
    (dt : String) (entries : List (String × Model)) (ws wp : Bool)
    (th : Option Theme) (ids : Nat → String) :
    (∃ script, components (ComponentsInput.single (PyObj.model m)) ws wp th ids
        = Except.ok (script, Shaped.single (resultFor wp (ids 0) m))) ∧
    (∃ script, components (ComponentsInput.seq (ms.map PyObj.model)) ws wp th ids
        = Except.ok (script,
            Shaped.seq (ms.enum.map (fun p => resultFor wp (ids p.1) p.2)))) ∧
    (∃ script out,
      components (ComponentsInput.mapping dt
          (entries.map (fun e => (PyKey.str e.1, PyObj.model e.2)))) ws wp th ids
        = Except.ok (script, Shaped.mapping dt out)
      ∧ out.map Prod.fst = entries.map Prod.fst) := by
  have h1 : components (ComponentsInput.single (PyObj.model m)) ws wp th ids
      = Except.ok (compScript ws [ModelLike.model m] ids,
          Shaped.single (resultFor wp (ids 0) m)) := by
    simp only [components, wrapSingleModel, is_single_model, _check_models_or_docs,
      allModelLike, asModelLike, compScript, standalone_docs_json_and_render_items,
      expandAll, expandRoots]
    cases wp <;> simp [resultFor, List.enum]
  have h2 : components (ComponentsInput.seq (ms.map PyObj.model)) ws wp th ids
      = Except.ok (compScript ws (ms.map ModelLike.model) ids,
          Shaped.seq (ms.enum.map (fun p => resultFor wp (ids p.1) p.2))) := by
    simp only [components, wrapSingleModel, is_single_model, allModelLike_map_model,
      _check_models_or_docs, compScript, standalone_docs_json_and_render_items,
      expandAll_map_model]
    rw [results_of_roots]
    simp
  have h3 : components (ComponentsInput.mapping dt
        (entries.map (fun e => (PyKey.str e.1, PyObj.model e.2)))) ws wp th ids
      = Except.ok
          (compScript ws
            ((entries.map (fun e => (e.1, ModelLike.model e.2))).map Prod.snd) ids,
           Shaped.mapping dt
            ((entries.map Prod.fst).zip
              ((entries.map Prod.snd).enum.map
                (fun p => resultFor wp (ids p.1) p.2)))) := by
    simp only [components, wrapSingleModel, is_single_model, allEntries_str_model,
      _check_models_or_docs, compScript, standalone_docs_json_and_render_items,
      expandAll_map_snd]
    rw [results_of_roots]
    simp only [List.map_map]
    have hfst : (Prod.fst ∘ fun e : String × Model => (e.1, ModelLike.model e.2))
        = (Prod.fst : String × Model → String) := funext (fun e => rfl)
    rw [hfst]
    simp
  have hkeys : (((entries.map Prod.fst).zip
        ((entries.map Prod.snd).enum.map (fun p => resultFor wp (ids p.1) p.2))).map
          Prod.fst)
      = entries.map Prod.fst := by
    rw [List.map_fst_zip]
    simp [List.enum_length]
  exact ⟨⟨_, h1⟩, ⟨_, h2⟩, ⟨_, _, h3, hkeys⟩⟩

/-! ### Claim C10 -/

/-- Claim C10: a single Document passed directly to `components` is
not unwrapped. Only a bare Model sets the single-shape flag, so a
Document input yields the ordered sequence of per-root results, one
per root of that Document, and never a single unwrapped value. -/
theorem components_single_document_shape (d : Document) (ws wp : Bool)
    (th : Option Theme) (ids : Nat → String) :
    (∃ script, components (ComponentsInput.single (PyObj.doc d)) ws wp th ids
        = Except.ok (script,
            Shaped.seq (d.roots.enum.map (fun p => resultFor wp (ids p.1) p.2)))) ∧
    (∀ script v, components (ComponentsInput.single (PyObj.doc d)) ws wp th ids
        ≠ Except.ok (script, Shaped.single v)) := by
  have hrun : components (ComponentsInput.single (PyObj.doc d)) ws wp th ids
      = Except.ok
          ((if ws then ("<script>"
              ++ script_for_render_items
                (standalone_docs_json_and_render_items [ModelLike.doc d] ids).1
                (standalone_docs_json_and_render_items [ModelLike.doc d] ids).2
              ++ "</script>")
            else script_for_render_items
                (standalone_docs_json_and_render_items [ModelLike.doc d] ids).1
                (standalone_docs_json_and_render_items [ModelLike.doc d] ids).2),
           Shaped.seq (d.roots.enum.map (fun p => resultFor wp (ids p.1) p.2))) := by
    simp only [components, wrapSingleModel, is_single_model, _check_models_or_docs]
    have hexp : expandAll [ModelLike.doc d] = d.roots := by
      simp [expandAll, expandRoots]
    simp only [standalone_docs_json_and_render_items, hexp]
    rw [results_of_roots]
    simp
  refine ⟨⟨_, hrun⟩, ?_⟩
  intro script v h
  rw [hrun] at h
  simp at h

/-! ### Claim C3 -/

theorem firstDocTitle_map_model (xs : List Model) :
    firstDocTitle (xs.map ModelLike.model) = none := by
  induction xs with
  | nil => rfl
  | cons x rest ih => simp [firstDocTitle, ih]

theorem firstDocTitle_append_models (pre : List Model) (d : Document)
    (rest : List ModelLike) :
    firstDocTitle (pre.map ModelLike.model ++ ModelLike.doc d :: rest)
      = some d.title := by
  induction pre with
  | nil => rfl
  | cons x xs ih => simpa [firstDocTitle] using ih

theorem firstOwnerTitle_none (xs : List Model)
    (h : ∀ x ∈ xs, x.document = none) :
    firstOwnerTitle (xs.map ModelLike.model) = none := by
  induction xs with
  | nil => rfl
  | cons x rest ih =>
    have hx := h x (by simp)
    simp only [List.map_cons, firstOwnerTitle, hx]
    exact ih (fun y hy => h y (by simp [hy]))

theorem firstOwnerTitle_found (pre : List Model) (m : Model) (dr : DocRef)
    (rest : List Model) (hpre : ∀ x ∈ pre, x.document = none)
    (hm : m.document = some dr) :
    firstOwnerTitle ((pre ++ m :: rest).map ModelLike.model) = some dr.title := by
  induction pre with
  | nil => simp [firstOwnerTitle, hm]
  | cons x xs ih =>
    have hx := hpre x (by simp)
    simp only [List.append_eq, List.cons_append, List.map_cons, firstOwnerTitle, hx]
    exact ih (fun y hy => hpre y (by simp [hy]))

/-- Claim C3: title precedence in `file_html`. A non-none caller
title always becomes the page title; else the title of the first
element of the supplied collection that is itself a Document; else,
when no Document is listed, the owning-document title of the first
model that has one; else the toolkit default title. A Document passed
directly is expanded to its roots first, so (given its roots carry
the owning back-reference and the root list is non-empty) its title
is found through the back-reference of its first root. -/
theorem file_html_title_precedence :
    (∀ inp t th ids, (file_html inp (some t) th ids).title = t) ∧
    (∀ (pre : List Model) (d : Document) (rest : List ModelLike) th ids,
      (file_html (FileHtmlInput.seq
          (pre.map ModelLike.model ++ ModelLike.doc d :: rest)) none th ids).title
        = d.title) ∧
    (∀ (d : Document) (r0 : Model) (rs : List Model) th ids,
      d.roots = r0 :: rs →
      (∀ x ∈ d.roots, x.document = some (DocRef.mk d.did d.title)) →
      (file_html (FileHtmlInput.doc d) none th ids).title = d.title) ∧
    (∀ (pre rest : List Model) (m : Model) (dr : DocRef) th ids,
      (∀ x ∈ pre, x.document = none) →
      m.document = some dr →
      (file_html (FileHtmlInput.seq ((pre ++ m :: rest).map ModelLike.model))
          none th ids).title = dr.title) ∧
    (∀ (ms : List Model) th ids,
      (∀ x ∈ ms, x.document = none) →
      (file_html (FileHtmlInput.seq (ms.map ModelLike.model)) none th ids).title
        = DEFAULT_TITLE) := by
  refine ⟨?_, ?_, ?_, ?_, ?_⟩
  · intro inp t th ids
    simp [file_html, _title_from_models]
  · intro pre d rest th ids
    simp [file_html, models_seq, _title_from_models,
      firstDocTitle_append_models]
  · intro d r0 rs th ids hroots hwf
    have h0 : r0.document = some (DocRef.mk d.did d.title) :=
      hwf r0 (by simp [hroots])
    simp [file_html, models_seq, _title_from_models, hroots,
      firstDocTitle, firstOwnerTitle, h0, firstDocTitle_map_model]
  · intro pre rest m dr th ids hpre hm
    have hdoc := firstDocTitle_map_model (pre ++ m :: rest)
    have hown := firstOwnerTitle_found pre m dr rest hpre hm
    simp only [List.map_append, List.map_cons] at hdoc hown
    simp [file_html, models_seq, _title_from_models, hdoc, hown]
  · intro ms th ids hms
    simp [file_html, models_seq, _title_from_models,
      firstDocTitle_map_model, firstOwnerTitle_none ms hms]

/-- Claim C3 witness: for two models with no owning document and no
caller title, the page title is the default title; a caller title is
always used verbatim. -/
theorem file_html_title_precedence_witness :
    (file_html (FileHtmlInput.seq
        [ModelLike.model (Model.mk 20 none), ModelLike.model (Model.mk 21 none)])
        none none (fun i => ("id-" ++ Nat.repr i))).title = DEFAULT_TITLE ∧
    (file_html (FileHtmlInput.seq
        [ModelLike.model (Model.mk 20 none), ModelLike.model (Model.mk 21 none)])
        (some ("Foo")) none (fun i => ("id-" ++ Nat.repr i))).title = "Foo" := by
  constructor
  · exact file_html_title_precedence.2.2.2.2 [Model.mk 20 none, Model.mk 21 none]
      none (fun i => ("id-" ++ Nat.repr i)) (by decide)
  · exact file_html_title_precedence.1 (FileHtmlInput.seq
      [ModelLike.model (Model.mk 20 none), ModelLike.model (Model.mk 21 none)])
      ("Foo") none (fun i => ("id-" ++ Nat.repr i))

/-! ### Claim C7 -/

/-- Claim C7 counterexample: the validation error raised by
`_check_models_or_docs` does not name the position or key of the
offending value. Two inputs whose offending element sits at
different positions (position 0 and position 1) produce the very same
fixed error value, so the error cannot identify the position; the
fixed message text contains no position or key at all. -/
theorem check_models_error_positionless :
    _check_models_or_docs (ComponentsInput.seq
        [PyObj.other ("not a model"), PyObj.model (Model.mk 30 none)])
      = Except.error invalidInputMsg ∧
    _check_models_or_docs (ComponentsInput.seq
        [PyObj.model (Model.mk 30 none), PyObj.other ("not a model")])
      = Except.error invalidInputMsg := by
  constructor <;> rfl

theorem allModelLike_invalid (xs : List PyObj)
    (h : xs.all isModelOrDoc = false) : allModelLike xs = none := by
  induction xs with
  | nil => simp at h
  | cons x rest ih =>
    simp only [List.all_cons, Bool.and_eq_false_iff] at h
    cases h with
    | inl hx =>
      cases x <;> simp_all [isModelOrDoc, allModelLike, asModelLike]
    | inr hrest =>
      cases hx : asModelLike x <;> simp [allModelLike, hx, ih hrest]

theorem allEntries_invalid (es : List (PyKey × PyObj))
    (h : es.all (fun e => isStrKey e.1 && isModelOrDoc e.2) = false) :
    allEntries es = none := by
  induction es with
  | nil => simp at h
  | cons e rest ih =>
    simp only [List.all_cons, Bool.and_eq_false_iff] at h
    cases h with
    | inl he =>
      rcases e with ⟨k, v⟩
      simp only [Bool.and_eq_false_iff] at he
      cases he with
      | inl hk => cases k <;> simp_all [isStrKey, allEntries, entryOk]
      | inr hv =>
        cases k
        · cases v <;> simp_all [isModelOrDoc, allEntries, entryOk, asModelLike]
        · simp [allEntries, entryOk]
    | inr hrest =>
      cases he : entryOk e <;> simp [allEntries, he, ih hrest]

theorem check_invalid_of_not_valid (models : ComponentsInput)
    (h : input_type_valid models = false) :
    _check_models_or_docs (wrapSingleModel models) = Except.error invalidInputMsg := by
  cases models with
  | single x =>
    cases x <;> simp_all [input_type_valid, isModelOrDoc, wrapSingleModel,
      _check_models_or_docs]
  | seq xs =>
    simp [wrapSingleModel, _check_models_or_docs,
      allModelLike_invalid xs (by simpa [input_type_valid] using h)]
  | mapping dt es =>
    simp [wrapSingleModel, _check_models_or_docs,
      allEntries_invalid es (by simpa [input_type_valid] using h)]

/-- Claim C7 as amended: for every caller input that is not a Model,
a Document, a sequence of Models and Documents, or a string-keyed
mapping of Models and Documents, `components` fails immediately with
the fixed ValueError message (which does not name the offending
position or key), before any serialization occurs. -/
theorem components_invalid_input_error (models : ComponentsInput)
    (ws wp : Bool) (th : Option Theme) (ids : Nat → String)
    (h : input_type_valid models = false) :
    components models ws wp th ids = Except.error invalidInputMsg := by
  simp [components, check_invalid_of_not_valid models h]

/-- Claim C7 witness: a sequence holding a non-model value is
rejected with the fixed ValueError message. -/
theorem components_invalid_input_error_witness :
    components (ComponentsInput.seq [PyObj.other ("not a model")]) true true
        none (fun i => ("id-" ++ Nat.repr i))
      = Except.error invalidInputMsg :=
  components_invalid_input_error
    (ComponentsInput.seq [PyObj.other ("not a model")]) true true none
    (fun i => ("id-" ++ Nat.repr i)) (by decide)

/-! ### Claim C2 -/

/-- A concrete two-root document used to exercise `autoload_static`. -/
def docTwo : Document :=
  Document.mk 1 ("T")
    [Model.mk 10 (some (DocRef.mk 1 ("T"))), Model.mk 11 (some (DocRef.mk 1 ("T")))]

/-- A concrete identifier supply. -/
def ids0 : Nat → String := fun i => ("id-" ++ Nat.repr i)

/-- Claim C2 counterexample: `autoload_static` invoked with a
Document holding two roots does not fail: it returns a (js, tag)
pair, and the tag references only the element identifier generated
for the first root (the second root is silently ignored). The claim
that a multi-root Document fails with a ValueError-class MisuseError
is therefore false on the code. -/
theorem autoload_static_multiroot_succeeds :
    autoload_static (PyObj.doc docTwo) ("static/app.js") ids0
      = Except.ok
          (wrap_in_onload (AUTOLOAD_JS_render (ids0 0)
            (script_for_render_items
              (standalone_docs_json_and_render_items [ModelLike.doc docTwo] ids0).1
              (standalone_docs_json_and_render_items [ModelLike.doc docTwo] ids0).2)),
           AUTOLOAD_TAG_render ("static/app.js") (ids0 0)) := by
  rfl

/-- Claim C2 as amended: `autoload_static` invoked with anything that
is neither a Model nor a Document raises the ValueError of the
source; invoked with one Model it succeeds; invoked with a Document
whose root list is non-empty it succeeds, and the returned tag
references only the element identifier generated for the first root,
silently ignoring any further roots. -/
theorem autoload_static_behavior :
    (∀ s p ids, autoload_static (PyObj.other s) p ids
        = Except.error ("autoload_static expects a single Model or Document")) ∧
    (∀ m p ids, ∃ js, autoload_static (PyObj.model m) p ids
        = Except.ok (js, AUTOLOAD_TAG_render p (ids 0))) ∧
    (∀ (d : Document) (r0 : Model) (rs : List Model) p ids,
      d.roots = r0 :: rs →
      ∃ js, autoload_static (PyObj.doc d) p ids
        = Except.ok (js, AUTOLOAD_TAG_render p (ids 0))) := by
  refine ⟨?_, ?_, ?_⟩
  · intro s p ids
    rfl
  · intro m p ids
    exact ⟨_, rfl⟩
  · intro d r0 rs p ids hroots
    obtain ⟨did, title, roots⟩ := d
    simp only at hroots
    subst hroots
    exact ⟨_, rfl⟩

/-- Claim C2 witness (amended form): a Model succeeds, and a one-root
Document succeeds. -/
theorem autoload_static_behavior_witness :
    (∃ js, autoload_static (PyObj.model (Model.mk 40 none)) ("a.js") ids0
        = Except.ok (js, AUTOLOAD_TAG_render ("a.js") (ids0 0))) ∧
    (∃ js, autoload_static
        (PyObj.doc (Document.mk 2 ("S") [Model.mk 41 (some (DocRef.mk 2 ("S")))]))
        ("b.js") ids0
        = Except.ok (js, AUTOLOAD_TAG_render ("b.js") (ids0 0))) := by
  constructor
  · exact autoload_static_behavior.2.1 (Model.mk 40 none) ("a.js") ids0
  · exact autoload_static_behavior.2.2
      (Document.mk 2 ("S") [Model.mk 41 (some (DocRef.mk 2 ("S")))])
      (Model.mk 41 (some (DocRef.mk 2 ("S")))) [] ("b.js") ids0 rfl

/-! ### Claim C4 -/

/-- Claim C4: `json_item` for one Model clears the resolved document
title (the serialized tree carries the empty title), and returns a
record whose target identifier equals the caller-supplied one (none
when omitted), whose root identifier is the generated identifier of
the first serialized root, whose doc field is the serialized tree,
and whose version field is the toolkit version string. -/
theorem json_item_fields (m : Model) (target : Option String)
    (th : Option Theme) (ids : Nat → String) :
    (json_item m target th ids).target_id = target ∧
    (json_item m target th ids).doc.title = "" ∧
    (json_item m target th ids).doc
      = standalone_docs_json ("") [m] ids ∧
    (json_item m target th ids).doc.roots.map DocJsonRoot.id = [ids 0] ∧
    (json_item m target th ids).root_id = ids 0 ∧
    (json_item m target th ids).version = __version__ := by
  refine ⟨rfl, rfl, rfl, ?_, ?_, rfl⟩ <;>
    simp [json_item, standalone_docs_json, List.enum]

/-! ### Claim C5 -/

theorem restore_attach_point (ms : List Model) (docId : Nat)
    (a : Nat → Option Nat) (i : Nat) :
    restorePrior (savePrior ms a) (attachAll ms docId a) i = a i := by
  induction ms with
  | nil => simp [restorePrior, savePrior, attachAll, List.lookup]
  | cons m rest ih =>
    by_cases h : i = m.mid
    · subst h
      simp [restorePrior, savePrior, List.lookup]
    · have hima : (i == m.mid) = false := beq_eq_false_iff_ne.mpr h
      have hami : (m.mid == i) = false := beq_eq_false_iff_ne.mpr (Ne.symm h)
      simp only [restorePrior, savePrior, List.map_cons, List.lookup, hima,
        attachAll, List.any_cons, hami, Bool.false_or] at ih ⊢
      exact ih

theorem withOutputDocumentFor_assoc {α : Type} (ms : List Model)
    (et : Option Theme) (an : Bool) (nd : Nat)
    (body : Nat → Theme → EmbedState → Except String α × EmbedState)
    (st : EmbedState)
    (hbody : ∀ d t s, ((body d t s).2).assoc = s.assoc) :
    ((withOutputDocumentFor ms et an nd body st).2).assoc = st.assoc := by
  cases hsh : sharedDoc ms st with
  | some d =>
    cases an with
    | false =>
      simp only [withOutputDocumentFor, hsh]
      exact hbody d _ st
    | true =>
      simp only [withOutputDocumentFor, hsh]
      rw [hbody]
      funext i
      exact restore_attach_point ms nd st.assoc i
  | none =>
    simp only [withOutputDocumentFor, hsh]
    rw [hbody]
    funext i
    exact restore_attach_point ms nd st.assoc i

/-- Claim C5: cleanup guarantee. For every invocation of any entry
point, whether the serialization step succeeds or raises
(`serializeOk` false), after the call the owning-container
association of every object is exactly what it was before the call:
temporarily detached roots are restored and the transient container
is discarded. -/
theorem entry_points_restore_assoc (call : EntryCall) (ids : Nat → String)
    (serializeOk : Bool) (newDocId : Nat) (st : EmbedState) :
    ((runEntryState call ids serializeOk newDocId st).2).assoc = st.assoc := by
  cases call with
  | componentsC models ws wp theme =>
    simp only [runEntryState]
    cases h : components models ws wp theme ids with
    | error e => rfl
    | ok pr =>
      exact withOutputDocumentFor_assoc _ _ _ _ _ _ (fun d t s => rfl)
  | fileHtmlC models title theme =>
    simp only [runEntryState]
    exact withOutputDocumentFor_assoc _ _ _ _ _ _ (fun d t s => rfl)
  | autoloadC m path =>
    cases m with
    | other s => rfl
    | model mm =>
      simp only [runEntryState]
      exact withOutputDocumentFor_assoc _ _ _ _ _ _ (fun d t s => rfl)
    | doc dd =>
      simp only [runEntryState]
      exact withOutputDocumentFor_assoc _ _ _ _ _ _ (fun d t s => rfl)
  | jsonItemC m target theme =>
    simp only [runEntryState]
    exact withOutputDocumentFor_assoc _ _ _ _ _ _ (fun d t s => rfl)

/-! ### Claim C6 -/

theorem withOutputDocumentFor_titles {α : Type} (ms : List Model)
    (et : Option Theme) (an : Bool) (nd : Nat)
    (body : Nat → Theme → EmbedState → Except String α × EmbedState)
    (st : EmbedState)
    (hbody : ∀ d t s, ((body d t s).2).titles = s.titles) :
    ((withOutputDocumentFor ms et an nd body st).2).titles = st.titles := by
  cases hsh : sharedDoc ms st with
  | some d =>
    cases an with
    | false =>
      simp only [withOutputDocumentFor, hsh]
      exact hbody d _ st
    | true =>
      simp only [withOutputDocumentFor, hsh]
      rw [hbody]
      funext i
      by_cases h : i = nd <;> simp [h]
  | none =>
    simp only [withOutputDocumentFor, hsh]
    rw [hbody]
    funext i
    by_cases h : i = nd <;> simp [h]

/-- A concrete model that is a root of the concrete pre-existing
document number 1. -/
def mEx : Model := Model.mk 10 (some (DocRef.mk 1 ("My Title")))

/-- A concrete state: model 10 belongs to document 1, whose title is
non-empty. -/
def stEx : EmbedState :=
  EmbedState.mk (fun i => if i == 10 then some 1 else none)
    (fun i => if i == 1 then ("My Title") else (""))
    (fun _ => none)

/-- Claim C6 counterexample: `json_item` on a model whose
pre-existing document is reused sets that document title to the
empty string, and the empty title persists after the invocation
completes. The claim that the reused container title is unchanged
for every entry point is therefore false. -/
theorem json_item_reuse_clears_title :
    stEx.titles 1 = "My Title" ∧
    ((runEntryState (EntryCall.jsonItemC mEx none none) ids0 true 999 stEx).2).titles 1
      = "" := by
  exact ⟨rfl, rfl⟩

/-- Claim C6 as amended: when every input already shares exactly one
pre-existing container and that container is reused, its title is
unchanged after `components`, `file_html` and `autoload_static`
(those entry points never write a title, so every title is
preserved); `json_item`, however, sets the resolved document title to
the empty string, so a reused pre-existing container carries the
empty title afterwards. -/
theorem titles_after_entry_points :
    (∀ models ws wp th ids ok nd st,
      ((runEntryState (EntryCall.componentsC models ws wp th) ids ok nd st).2).titles
        = st.titles) ∧
    (∀ models t th ids ok nd st,
      ((runEntryState (EntryCall.fileHtmlC models t th) ids ok nd st).2).titles
        = st.titles) ∧
    (∀ m path ids ok nd st,
      ((runEntryState (EntryCall.autoloadC m path) ids ok nd st).2).titles
        = st.titles) ∧
    (∀ m target th ids ok nd st d,
      sharedDoc [m] st = some d →
      ((runEntryState (EntryCall.jsonItemC m target th) ids ok nd st).2).titles d
        = "") := by
  refine ⟨?_, ?_, ?_, ?_⟩
  · intro models ws wp th ids ok nd st
    simp only [runEntryState]
    cases h : components models ws wp th ids with
    | error e => rfl
    | ok pr =>
      exact withOutputDocumentFor_titles _ _ _ _ _ _ (fun d t s => rfl)
  · intro models t th ids ok nd st
    simp only [runEntryState]
    exact withOutputDocumentFor_titles _ _ _ _ _ _ (fun d t s => rfl)
  · intro m path ids ok nd st
    cases m with
    | other s => rfl
    | model mm =>
      simp only [runEntryState]
      exact withOutputDocumentFor_titles _ _ _ _ _ _ (fun d t s => rfl)
    | doc dd =>
      simp only [runEntryState]
      exact withOutputDocumentFor_titles _ _ _ _ _ _ (fun d t s => rfl)
  · intro m target th ids ok nd st d hsd
    simp only [runEntryState, withOutputDocumentFor, hsd]
    simp

/-- Claim C6 witness (amended form): the concrete reuse scenario of
the counterexample, through the amended statement. -/
theorem titles_after_entry_points_witness :
    ((runEntryState (EntryCall.jsonItemC mEx none none) ids0 true 999 stEx).2).titles 1
      = "" :=
  titles_after_entry_points.2.2.2 mEx none none ids0 true 999 stEx 1 rfl

/-! ### Claim C8 -/

/-- Claim C8: theme precedence. An explicitly supplied theme is the
theme in effect; with no explicit theme, a reused pre-existing
container carrying a theme keeps it; with neither, the toolkit
default theme applies. -/
theorem theme_precedence_resolved :
    (∀ ms t2 an st, themeInEffect ms (some t2) an st = t2) ∧
    (∀ ms d t1 st, sharedDoc ms st = some d → st.themes d = some t1 →
      themeInEffect ms none false st = t1) ∧
    (∀ ms st, container_theme ms false st = none →
      themeInEffect ms none false st = default_theme) := by
  refine ⟨?_, ?_, ?_⟩
  · intro ms t2 an st
    rfl
  · intro ms d t1 st hsd hth
    simp [themeInEffect, container_theme, hsd, hth, apply_theme_precedence]
  · intro ms st h
    simp [themeInEffect, h, apply_theme_precedence]

/-- A concrete state for the theme claims: model 10 belongs to
document 1, which carries theme t1. -/
def stT : EmbedState :=
  EmbedState.mk (fun i => if i == 10 then some 1 else none)
    (fun _ => (""))
    (fun i => if i == 1 then some (Theme.named ("t1")) else none)

/-- Claim C8 witness: with no explicit theme the reused container
theme t1 is in effect; an explicit theme t2 wins over it; with no
shared container the default theme applies. -/
theorem theme_precedence_resolved_witness :
    themeInEffect [mEx] none false stT = Theme.named ("t1") ∧
    themeInEffect [mEx] (some (Theme.named ("t2"))) false stT
      = Theme.named ("t2") ∧
    themeInEffect [] none false stT = default_theme := by
  refine ⟨?_, ?_, ?_⟩
  · exact theme_precedence_resolved.2.1 [mEx] 1 (Theme.named ("t1")) stT rfl rfl
  · exact theme_precedence_resolved.1 [mEx] (Theme.named ("t2")) false stT
  · exact theme_precedence_resolved.2.2 [] stT rfl

/-! ### Claim C9 -/

/-- Claim C9: determinism. Calling the same entry point twice with
identical inputs and an identical generated-identifier supply
produces identical output artifacts: the whole pipeline is a pure
function of the call and the identifier supply. -/
theorem run_entry_deterministic (c1 c2 : EntryCall) (s1 s2 : Nat → String)
    (hc : c1 = c2) (hs : s1 = s2) : runEntry c1 s1 = runEntry c2 s2 := by
  subst hc
  subst hs
  rfl

/-- Claim C9 witness: two identical concrete calls yield the same
artifact. -/
theorem run_entry_deterministic_witness :
    runEntry (EntryCall.jsonItemC (Model.mk 50 none) (some ("tgt")) none) ids0
      = runEntry (EntryCall.jsonItemC (Model.mk 50 none) (some ("tgt")) none) ids0 :=
  run_entry_deterministic _ _ _ _ rfl rfl

end Standalone
